import Mathlib

/-!
Shallow embedding of `internal/gdrive/util.go` from Herover/kube-state-metrics.

The embedding models:
* the column codec `columnToLetter` / `letterToColumn`;
* the `GDrive` struct (its title → spreadsheet cache and folder id);
* `updateSheetHead`, `getSheet` and `LogRow`, with the remote Drive/Sheets
  services abstracted as an oracle (`Remote`) and each remote invocation
  recorded in an explicit call trace.

Machine integers are modelled as `Int`/`Nat`; `math.Pow(26, k)` is exact at
the exponents reachable from `int` inputs, so it is modelled as `26 ^ k`.
-/

namespace GDriveUtil

/-- Fuel-driven body of the Go loop in `columnToLetter`.  One unit of fuel is
one loop iteration; for a column value `c` the loop runs at most `c`
iterations because the loop variable strictly decreases, so fuel `c` always
suffices (`columnToLetterFuel_congr`).  For `column = n+1` the Go body
computes `temp = (column-1) % 26 = n % 26`, prepends the character
`temp + 65` to the accumulated string, and continues with
`(column - temp - 1) / 26 = n / 26`. -/
def columnToLetterFuel : Nat → Nat → String
  | _, 0 => ""
  | 0, _ + 1 => ""
  | fuel + 1, n + 1 =>
    columnToLetterFuel fuel (n / 26) ++ (Char.ofNat (65 + n % 26)).toString

/-- The Go loop of `columnToLetter` on nonnegative loop variables. -/
def columnToLetterAux (n : Nat) : String :=
  columnToLetterFuel n n

/-- Go `columnToLetter(column int) string`: the loop `for column > 0` never
runs for `column ≤ 0`, so those inputs return the empty string. -/
def columnToLetter (column : Int) : String :=
  if column ≤ 0 then "" else columnToLetterAux column.toNat

/-- Go loop of `letterToColumn`: the character at index `i` contributes
`(int(letter[i]) - 64) * 26^(length-i-1)`; the second argument carries
`length - i`, the number of characters not yet consumed. -/
def letterToColumnAux : List Char → Nat → Int
  | [], _ => 0
  | c :: rest, len =>
    ((c.toNat : Int) - 64) * 26 ^ (len - 1) + letterToColumnAux rest (len - 1)

/-- Go `letterToColumn(letter string) int`. -/
def letterToColumn (letter : String) : Int :=
  letterToColumnAux letter.data letter.data.length

/-- Go `drive.File`: only the fields the embedded code reads or sets. -/
structure DriveFile where
  id : String
  name : String
  deriving DecidableEq, Repr

/-- Go `sheets.Spreadsheet`: the handle returned by `Spreadsheets.Get`. -/
structure Spreadsheet where
  spreadsheetId : String
  deriving DecidableEq, Repr

/-- One remote service invocation, recorded in order of occurrence. -/
inductive Call where
  | list (query : String)
  | create (name mimeType : String) (parents : List String)
  | update (fileID range : String) (values : List (List String))
  | get (fileID : String)
  deriving DecidableEq, Repr

/-- Oracle for the remote Drive/Sheets services: the result each call site
would receive.  Go `error` values are modelled as strings. -/
structure Remote where
  listResult : Except String (List DriveFile)
  createResult : Except String DriveFile
  updateResult : String → Except String Unit
  getResult : String → Except String Spreadsheet

/-- Go `GDrive` struct: the folder id and the title → spreadsheet cache
(`sheets map[string]*sheets.Spreadsheet`), modelled as an association list. -/
structure GDrive where
  folderID : String
  sheets : List (String × Spreadsheet)

/-- Go `updateSheetHead`: gathers the keys of `data`, forms
`values = [[description], keys]`, and issues one `Values.Update` against the
range `"A1:" + columnToLetter(1+len(keys)) + strconv.Itoa(len(values))`.
The `title` parameter is unused, as in the source.  Returns the call result
together with the issued call. -/
def updateSheetHead (remote : Remote) (fileID title description : String)
    (data : List (String × List String)) : Except String Unit × List Call :=
  let keys := data.map Prod.fst
  let values := [[description], keys]
  let range := "A1:" ++ columnToLetter (1 + (keys.length : Int)) ++ toString values.length
  (remote.updateResult fileID, [Call.update fileID range values])

/-- Query string built by `getSheet` for `Files.List` (reproducing the Go
code's missing space before the parents condition). -/
def listQuery (title folderID : String) : String :=
  "name = '" ++ title ++ "' and'" ++ folderID ++ "' in parents"

/-- Go `getSheet`: on a cache hit returns the cached sheet; on a miss lists
matching files, then creates + writes header + fetches (zero matches),
writes header + fetches (one match; the fetch error is not checked, as in
the source), or fails (more matches).  The source never assigns to
`gDrive.sheets`, so the returned `GDrive` is the input.  Returns
(result, state after the call, calls issued). -/
def getSheet (gd : GDrive) (remote : Remote) (title description : String)
    (data : List (String × List String)) :
    Except String (Option Spreadsheet) × GDrive × List Call :=
  match List.lookup title gd.sheets with
  | some sheet => (.ok (some sheet), gd, [])
  | none =>
    let q := listQuery title gd.folderID
    match remote.listResult with
    | .error e => (.error e, gd, [Call.list q])
    | .ok files =>
      match files with
      | [] =>
        let c := Call.create title "application/vnd.google-apps.spreadsheet" [gd.folderID]
        match remote.createResult with
        | .error e => (.error e, gd, [Call.list q, c])
        | .ok file =>
          let upd := updateSheetHead remote file.id title description data
          match upd.1 with
          | .error e => (.error e, gd, [Call.list q, c] ++ upd.2)
          | .ok _ =>
            match remote.getResult file.id with
            | .error e => (.error e, gd, [Call.list q, c] ++ upd.2 ++ [Call.get file.id])
            | .ok sheet =>
              (.ok (some sheet), gd, [Call.list q, c] ++ upd.2 ++ [Call.get file.id])
      | [f] =>
        let upd := updateSheetHead remote f.id title description data
        match upd.1 with
        | .error e => (.error e, gd, [Call.list q] ++ upd.2)
        | .ok _ =>
          match remote.getResult f.id with
          | .error _ => (.ok none, gd, [Call.list q] ++ upd.2 ++ [Call.get f.id])
          | .ok sheet => (.ok (some sheet), gd, [Call.list q] ++ upd.2 ++ [Call.get f.id])
      | _ =>
        (.error ("Got " ++ toString files.length ++ " files with name " ++ title ++
          ", expected 1"), gd, [Call.list q])

/-- Go `LogRow`: calls `getSheet` and propagates its error, returning
success (and nothing else) otherwise. -/
def LogRow (gd : GDrive) (remote : Remote) (title description : String)
    (row : List (String × List String)) : Except String Unit × List Call :=
  match getSheet gd remote title description row with
  | (.error e, _, calls) => (.error e, calls)
  | (.ok _, _, calls) => (.ok (), calls)

/-- `true` iff every update call in `calls` writes exactly the header block
values `[[description], keys of row]` and nothing further. -/
def headerValuesOnly (description : String) (row : List (String × List String))
    (calls : List Call) : Bool :=
  calls.all fun c =>
    match c with
    | Call.update _ _ vs => vs == [[description], row.map Prod.fst]
    | _ => true

/-- Remote oracle where one file named `t` with id `id1` exists, updates
succeed, fetches succeed, and creation is never expected. -/
def oneMatchRemote : Remote where
  listResult := .ok [⟨"id1", "t"⟩]
  createResult := .error "unexpected create"
  updateResult := fun _ => .ok ()
  getResult := fun fid => .ok ⟨fid ++ "-sheet"⟩

/-- Remote oracle where no file matches, creation yields id `new1`,
updates and fetches succeed. -/
def zeroMatchRemote : Remote where
  listResult := .ok []
  createResult := .ok ⟨"new1", "t"⟩
  updateResult := fun _ => .ok ()
  getResult := fun fid => .ok ⟨fid ++ "-sheet"⟩

/-- Remote oracle where two files named `t` match. -/
def twoMatchRemote : Remote where
  listResult := .ok [⟨"id1", "t"⟩, ⟨"id2", "t"⟩]
  createResult := .error "unexpected create"
  updateResult := fun _ => .ok ()
  getResult := fun fid => .ok ⟨fid ++ "-sheet"⟩

/-- Remote oracle whose file listing fails. -/
def listFailRemote : Remote where
  listResult := .error "list failed"
  createResult := .error "unexpected create"
  updateResult := fun _ => .ok ()
  getResult := fun fid => .ok ⟨fid ++ "-sheet"⟩

/-- A `GDrive` with folder id `F` and an empty cache, as built by `Create`
(which never populates `sheets`). -/
def gdEmpty : GDrive where
  folderID := "F"
  sheets := []

lemma columnToLetterFuel_congr :
    ∀ f1 f2 n, n ≤ f1 → n ≤ f2 → columnToLetterFuel f1 n = columnToLetterFuel f2 n := by
  intro f1
  induction f1 with
  | zero =>
    intro f2 n h1 _
    have hn : n = 0 := Nat.le_zero.mp h1
    subst hn
    cases f2 <;> rfl
  | succ g ih =>
    intro f2 n h1 h2
    match n, f2 with
    | 0, f2 => cases f2 <;> rfl
    | m + 1, g2 + 1 =>
      show columnToLetterFuel g (m / 26) ++ _ = columnToLetterFuel g2 (m / 26) ++ _
      have hg : m / 26 ≤ g :=
        Nat.le_trans (Nat.div_le_self m 26) (Nat.le_of_succ_le_succ h1)
      have hg2 : m / 26 ≤ g2 :=
        Nat.le_trans (Nat.div_le_self m 26) (Nat.le_of_succ_le_succ h2)
      rw [ih g2 (m / 26) hg hg2]

/-- Unfolding law of the Go loop: one iteration peels off the last letter. -/
lemma columnToLetterAux_succ (n : Nat) :
    columnToLetterAux (n + 1) =
      columnToLetterAux (n / 26) ++ (Char.ofNat (65 + n % 26)).toString := by
  show columnToLetterFuel n (n / 26) ++ _ = columnToLetterFuel (n / 26) (n / 26) ++ _
  rw [columnToLetterFuel_congr n (n / 26) (n / 26) (Nat.div_le_self n 26) (Nat.le_refl _)]

lemma letterToColumnAux_append (l : List Char) (c : Char) :
    letterToColumnAux (l ++ [c]) (l.length + 1) =
      26 * letterToColumnAux l l.length + ((c.toNat : Int) - 64) := by
  induction l with
  | nil => simp [letterToColumnAux]
  | cons a l ih =>
    simp only [List.cons_append, letterToColumnAux, List.length_cons, Nat.add_sub_cancel,
      List.append_eq]
    rw [ih, pow_succ]
    ring

lemma char_ofNat_toNat : ∀ r : Nat, r < 26 → (Char.ofNat (65 + r)).toNat = 65 + r := by
  decide

/-- The codec round-trips on every nonnegative loop value. -/
lemma letterToColumn_columnToLetterAux (n : Nat) :
    letterToColumn (columnToLetterAux n) = (n : Int) := by
  induction n using Nat.strong_induction_on with
  | _ n ih =>
    match n with
    | 0 => rfl
    | m + 1 =>
      rw [columnToLetterAux_succ]
      unfold letterToColumn
      have hdata : (columnToLetterAux (m / 26) ++ (Char.ofNat (65 + m % 26)).toString).data
          = (columnToLetterAux (m / 26)).data ++ [Char.ofNat (65 + m % 26)] := by
        rw [String.data_append]
        rfl
      rw [hdata, List.length_append, List.length_singleton, letterToColumnAux_append]
      have ihm : letterToColumnAux (columnToLetterAux (m / 26)).data
          (columnToLetterAux (m / 26)).data.length = ((m / 26 : Nat) : Int) :=
        ih (m / 26) (Nat.lt_succ_of_le (Nat.div_le_self m 26))
      rw [ihm, char_ofNat_toNat (m % 26) (Nat.mod_lt m (by omega))]
      push_cast
      omega

/-- The header block always consists of exactly two rows. -/
lemma two_values_length (d : String) (ks : List String) :
    ([[d], ks] : List (List String)).length = 2 := rfl

/-- `getSheet` never writes the cache: the `GDrive` it returns is its input,
on every path. -/
lemma getSheet_state_eq (gd : GDrive) (remote : Remote) (title description : String)
    (data : List (String × List String)) :
    (getSheet gd remote title description data).2.1 = gd := by
  unfold getSheet updateSheetHead
  dsimp only
  repeat' split
  all_goals rfl

/-- Every update call in a `getSheet` trace carries the header block values. -/
lemma getSheet_headerValuesOnly (gd : GDrive) (remote : Remote)
    (title description : String) (data : List (String × List String)) :
    headerValuesOnly description data (getSheet gd remote title description data).2.2 = true := by
  unfold getSheet updateSheetHead
  dsimp only
  repeat' split
  all_goals simp [headerValuesOnly]

/-- C9: `columnToLetter` maps 1 to "A", 26 to "Z", 27 to "AA" and 702 to
"ZZ". -/
theorem columnToLetter_examples :
    columnToLetter 1 = "A" ∧ columnToLetter 26 = "Z" ∧
    columnToLetter 27 = "AA" ∧ columnToLetter 702 = "ZZ" :=
  ⟨rfl, rfl, rfl, rfl⟩

/-- C4: for every positive integer `n`,
`letterToColumn (columnToLetter n) = n`. -/
theorem letterToColumn_columnToLetter_roundtrip (n : Int) (h : 0 < n) :
    letterToColumn (columnToLetter n) = n := by
  unfold columnToLetter
  rw [if_neg (not_le.mpr h)]
  rw [letterToColumn_columnToLetterAux]
  exact Int.toNat_of_nonneg (le_of_lt h)

theorem letterToColumn_columnToLetter_roundtrip_witness :
    ((0 : Int) < 1 ∧ (0 : Int) < 703) ∧
    letterToColumn (columnToLetter 1) = 1 ∧
    letterToColumn (columnToLetter 25) = 25 ∧
    letterToColumn (columnToLetter 26) = 26 ∧
    letterToColumn (columnToLetter 27) = 27 ∧
    letterToColumn (columnToLetter 52) = 52 ∧
    letterToColumn (columnToLetter 676) = 676 ∧
    letterToColumn (columnToLetter 702) = 702 ∧
    letterToColumn (columnToLetter 703) = 703 :=
  ⟨⟨by decide, by decide⟩,
    letterToColumn_columnToLetter_roundtrip 1 (by decide),
    letterToColumn_columnToLetter_roundtrip 25 (by decide),
    letterToColumn_columnToLetter_roundtrip 26 (by decide),
    letterToColumn_columnToLetter_roundtrip 27 (by decide),
    letterToColumn_columnToLetter_roundtrip 52 (by decide),
    letterToColumn_columnToLetter_roundtrip 676 (by decide),
    letterToColumn_columnToLetter_roundtrip 702 (by decide),
    letterToColumn_columnToLetter_roundtrip 703 (by decide)⟩

/-- C10: for every `n ≤ 0`, `columnToLetter n` returns the empty string
(the loop never runs), and `letterToColumn` of that result is 0, not `n`. -/
theorem columnToLetter_nonpositive (n : Int) (h : n ≤ 0) :
    columnToLetter n = "" ∧ letterToColumn (columnToLetter n) = 0 := by
  unfold columnToLetter
  rw [if_pos h]
  exact ⟨rfl, rfl⟩

theorem columnToLetter_nonpositive_witness :
    ((-7 : Int) ≤ 0) ∧ columnToLetter (-7) = "" ∧
    letterToColumn (columnToLetter (-7)) = 0 :=
  ⟨by decide, (columnToLetter_nonpositive (-7) (by decide)).1,
    (columnToLetter_nonpositive (-7) (by decide)).2⟩

/-- C3: for every row mapping and description, the header write issues
exactly one update, whose range starts at A1, ends at row 2 and at the
column whose letter is `columnToLetter (1 + k)` for `k` keys, and whose
values are row 1 = `[description]` and row 2 = the key names in the order
the mapping yields them. -/
theorem updateSheetHead_range_and_values (remote : Remote)
    (fileID title description : String) (data : List (String × List String)) :
    (updateSheetHead remote fileID title description data).2 =
      [Call.update fileID
        ("A1:" ++ columnToLetter (1 + (data.length : Int)) ++ "2")
        [[description], data.map Prod.fst]] := by
  unfold updateSheetHead
  dsimp only
  rw [List.length_map, two_values_length]
  rfl

theorem updateSheetHead_range_and_values_witness :
    (updateSheetHead oneMatchRemote "id1" "t" "D" [("a", []), ("b", [])]).2 =
      [Call.update "id1" "A1:C2" [["D"], ["a", "b"]]] :=
  updateSheetHead_range_and_values oneMatchRemote "id1" "t" "D" [("a", []), ("b", [])]

/-- C2 counterexample: for the row with keys `a`, `b`, `c` and description
`D`, the issued header write targets range "A1:D2", which is not the
claimed "A1:C2". -/
theorem updateSheetHead_abc_range_counterexample :
    (updateSheetHead oneMatchRemote "id1" "t" "D"
        [("a", []), ("b", []), ("c", [])]).2 =
      [Call.update "id1" "A1:D2" [["D"], ["a", "b", "c"]]] ∧
    ([Call.update "id1" "A1:D2" [["D"], ["a", "b", "c"]]] : List Call) ≠
      [Call.update "id1" "A1:C2" [["D"], ["a", "b", "c"]]] :=
  ⟨rfl, by decide⟩

/-- C2 amended: a header write for a row whose key set is exactly
`{a, b, c}` with description `D` issues an update to range "A1:D2"
(end column `columnToLetter (1 + 3)` = "D"), with row 1 equal to `["D"]`
and row 2 containing the three keys in some order, each exactly once. -/
theorem updateSheetHead_abc_header (remote : Remote) (fileID title : String)
    (data : List (String × List String))
    (h : (data.map Prod.fst).Perm ["a", "b", "c"]) :
    (updateSheetHead remote fileID title "D" data).2 =
      [Call.update fileID "A1:D2" [["D"], data.map Prod.fst]] ∧
    (data.map Prod.fst).length = 3 ∧
    (data.map Prod.fst).count "a" = 1 ∧
    (data.map Prod.fst).count "b" = 1 ∧
    (data.map Prod.fst).count "c" = 1 := by
  have hlen3 : (data.map Prod.fst).length = 3 := by simpa using h.length_eq
  refine ⟨?_, hlen3, ?_, ?_, ?_⟩
  · unfold updateSheetHead
    dsimp only
    rw [hlen3, two_values_length]
    rfl
  · rw [h.count_eq]; decide
  · rw [h.count_eq]; decide
  · rw [h.count_eq]; decide

theorem updateSheetHead_abc_header_witness :
    ((([("a", []), ("b", []), ("c", [])] : List (String × List String)).map
        Prod.fst).Perm ["a", "b", "c"]) ∧
    (updateSheetHead oneMatchRemote "id1" "t" "D"
        [("a", []), ("b", []), ("c", [])]).2 =
      [Call.update "id1" "A1:D2" [["D"], ["a", "b", "c"]]] ∧
    (["a", "b", "c"] : List String).count "a" = 1 :=
  ⟨List.Perm.refl _,
    (updateSheetHead_abc_header oneMatchRemote "id1" "t"
      [("a", []), ("b", []), ("c", [])] (List.Perm.refl _)).1,
    (updateSheetHead_abc_header oneMatchRemote "id1" "t"
      [("a", []), ("b", []), ("c", [])] (List.Perm.refl _)).2.2.1⟩

/-- C5: on a cache miss, if the remote listing reports two or more matching
files, `getSheet` fails with the error naming the match count, and its
trace is the single list call: no create and no header write happen. -/
theorem getSheet_ambiguous_title (gd : GDrive) (remote : Remote)
    (title description : String) (data : List (String × List String))
    (files : List DriveFile)
    (hc : List.lookup title gd.sheets = none)
    (hl : remote.listResult = .ok files)
    (h2 : 2 ≤ files.length) :
    (getSheet gd remote title description data).1 =
      .error ("Got " ++ toString files.length ++ " files with name " ++ title ++
        ", expected 1") ∧
    (getSheet gd remote title description data).2.2 =
      [Call.list (listQuery title gd.folderID)] := by
  rcases files with _ | ⟨a, _ | ⟨b, rest⟩⟩
  · simp at h2
  · simp at h2
  · unfold getSheet
    rw [hc, hl]
    exact ⟨rfl, rfl⟩

theorem getSheet_ambiguous_title_witness :
    (List.lookup "t" gdEmpty.sheets = none) ∧
    (twoMatchRemote.listResult = .ok [⟨"id1", "t"⟩, ⟨"id2", "t"⟩]) ∧
    (2 ≤ 2) ∧
    (getSheet gdEmpty twoMatchRemote "t" "D" []).1 =
      .error "Got 2 files with name t, expected 1" ∧
    (getSheet gdEmpty twoMatchRemote "t" "D" []).2.2 =
      [Call.list (listQuery "t" "F")] :=
  ⟨rfl, rfl, by decide,
    (getSheet_ambiguous_title gdEmpty twoMatchRemote "t" "D" []
      [⟨"id1", "t"⟩, ⟨"id2", "t"⟩] rfl rfl (by decide)).1,
    (getSheet_ambiguous_title gdEmpty twoMatchRemote "t" "D" []
      [⟨"id1", "t"⟩, ⟨"id2", "t"⟩] rfl rfl (by decide)).2⟩

/-- C6: on a cache miss with zero remote matches and a successful pipeline,
`getSheet` issues exactly list, create, header update, get — in that order —
and returns the fetched handle; with exactly one match it issues list,
header update, get (no create) and returns the fetched handle. -/
theorem getSheet_call_counts :
    (∀ (gd : GDrive) (remote : Remote) (title description : String)
        (data : List (String × List String)) (file : DriveFile)
        (sheet : Spreadsheet),
      List.lookup title gd.sheets = none →
      remote.listResult = .ok [] →
      remote.createResult = .ok file →
      remote.updateResult file.id = .ok () →
      remote.getResult file.id = .ok sheet →
      getSheet gd remote title description data =
        (.ok (some sheet), gd,
          [Call.list (listQuery title gd.folderID),
           Call.create title "application/vnd.google-apps.spreadsheet" [gd.folderID],
           Call.update file.id
             ("A1:" ++ columnToLetter (1 + (data.length : Int)) ++ "2")
             [[description], data.map Prod.fst],
           Call.get file.id])) ∧
    (∀ (gd : GDrive) (remote : Remote) (title description : String)
        (data : List (String × List String)) (f : DriveFile)
        (sheet : Spreadsheet),
      List.lookup title gd.sheets = none →
      remote.listResult = .ok [f] →
      remote.updateResult f.id = .ok () →
      remote.getResult f.id = .ok sheet →
      getSheet gd remote title description data =
        (.ok (some sheet), gd,
          [Call.list (listQuery title gd.folderID),
           Call.update f.id
             ("A1:" ++ columnToLetter (1 + (data.length : Int)) ++ "2")
             [[description], data.map Prod.fst],
           Call.get f.id])) := by
  constructor
  · intro gd remote title description data file sheet hc hl hcr hu hg
    unfold getSheet updateSheetHead
    dsimp only
    rw [hc, hl, hcr]
    dsimp only
    rw [hu]
    dsimp only
    rw [hg]
    dsimp only
    rw [List.length_map, two_values_length]
    rfl
  · intro gd remote title description data f sheet hc hl hu hg
    unfold getSheet updateSheetHead
    dsimp only
    rw [hc, hl]
    dsimp only
    rw [hu]
    dsimp only
    rw [hg]
    dsimp only
    rw [List.length_map, two_values_length]
    rfl

theorem getSheet_call_counts_witness :
    (List.lookup "t" gdEmpty.sheets = none) ∧
    getSheet gdEmpty zeroMatchRemote "t" "D" [("a", [])] =
      (.ok (some ⟨"new1-sheet"⟩), gdEmpty,
        [Call.list (listQuery "t" "F"),
         Call.create "t" "application/vnd.google-apps.spreadsheet" ["F"],
         Call.update "new1" "A1:B2" [["D"], ["a"]],
         Call.get "new1"]) ∧
    getSheet gdEmpty oneMatchRemote "t" "D" [("a", [])] =
      (.ok (some ⟨"id1-sheet"⟩), gdEmpty,
        [Call.list (listQuery "t" "F"),
         Call.update "id1" "A1:B2" [["D"], ["a"]],
         Call.get "id1"]) :=
  ⟨rfl,
    getSheet_call_counts.1 gdEmpty zeroMatchRemote "t" "D" [("a", [])]
      ⟨"new1", "t"⟩ ⟨"new1-sheet"⟩ rfl rfl rfl rfl rfl,
    getSheet_call_counts.2 gdEmpty oneMatchRemote "t" "D" [("a", [])]
      ⟨"id1", "t"⟩ ⟨"id1-sheet"⟩ rfl rfl rfl rfl⟩

/-- C7: whenever `getSheet` returns an error, the title → handle cache is
exactly what it was before the call. -/
theorem getSheet_error_cache_unchanged (gd : GDrive) (remote : Remote)
    (title description : String) (data : List (String × List String))
    (e : String)
    (_h : (getSheet gd remote title description data).1 = .error e) :
    ((getSheet gd remote title description data).2.1).sheets = gd.sheets := by
  rw [getSheet_state_eq]

theorem getSheet_error_cache_unchanged_witness :
    ((getSheet gdEmpty listFailRemote "t" "D" []).1 = .error "list failed") ∧
    ((getSheet gdEmpty listFailRemote "t" "D" []).2.1).sheets = gdEmpty.sheets :=
  ⟨rfl,
    getSheet_error_cache_unchanged gdEmpty listFailRemote "t" "D" []
      "list failed" rfl⟩

/-- C8: `LogRow` delegates entirely to `getSheet`: it succeeds exactly when
`getSheet` succeeds and propagates `getSheet`'s error otherwise, its trace
is `getSheet`'s trace, and every update in that trace writes only the
header block values, never the row's data values. -/
theorem LogRow_delegates_to_getSheet (gd : GDrive) (remote : Remote)
    (title description : String) (row : List (String × List String)) :
    (LogRow gd remote title description row).1 =
      Except.map (fun _ => ()) (getSheet gd remote title description row).1 ∧
    (LogRow gd remote title description row).2 =
      (getSheet gd remote title description row).2.2 ∧
    headerValuesOnly description row (LogRow gd remote title description row).2 = true := by
  have hv := getSheet_headerValuesOnly gd remote title description row
  unfold LogRow
  rcases hres : getSheet gd remote title description row with ⟨res, gd2, calls⟩
  rw [hres] at hv
  cases res with
  | error e => exact ⟨rfl, rfl, hv⟩
  | ok v => exact ⟨rfl, rfl, hv⟩

theorem LogRow_delegates_to_getSheet_witness :
    (LogRow gdEmpty oneMatchRemote "t" "D" [("a", [])]).1 = .ok () ∧
    (LogRow gdEmpty oneMatchRemote "t" "D" [("a", [])]).2 =
      (getSheet gdEmpty oneMatchRemote "t" "D" [("a", [])]).2.2 ∧
    headerValuesOnly "D" [("a", [])]
      (LogRow gdEmpty oneMatchRemote "t" "D" [("a", [])]).2 = true :=
  ⟨(LogRow_delegates_to_getSheet gdEmpty oneMatchRemote "t" "D" [("a", [])]).1,
    (LogRow_delegates_to_getSheet gdEmpty oneMatchRemote "t" "D" [("a", [])]).2.1,
    (LogRow_delegates_to_getSheet gdEmpty oneMatchRemote "t" "D" [("a", [])]).2.2⟩

/-- C1 (code bug): after a successful cache-miss resolution the cache is
still empty — `getSheet` never writes `gDrive.sheets` — so resolving the
same title again performs another remote listing instead of hitting the
cache. -/
theorem getSheet_never_caches :
    (getSheet gdEmpty oneMatchRemote "t" "D" [("a", [])]).1 =
      .ok (some ⟨"id1-sheet"⟩) ∧
    ((getSheet gdEmpty oneMatchRemote "t" "D" [("a", [])]).2.1).sheets = [] ∧
    Call.list (listQuery "t" "F") ∈
      (getSheet (getSheet gdEmpty oneMatchRemote "t" "D" [("a", [])]).2.1
        oneMatchRemote "t" "D" [("a", [])]).2.2 :=
  ⟨rfl, rfl, by decide⟩

end GDriveUtil
